import Mathlib

/-!
Verification development for a repository of three Dash dashboards:
a housing table/histogram explorer (`project4/table_and_figure_app.py`),
a stock candlestick viewer in two variants (`project5/real_time_stock_chart.py`
and `project5/real_time_stock_chart2.py`), and a Gapminder explorer
(`project6/gapmider_dashboard_with_Taps.py`).

The chart-building callbacks are embedded shallowly as pure Lean functions.
Dataframes become lists of records; the network fetch (`yf.download`) becomes
an explicit function parameter, so "the fetch result" is an input of the
callback and "no fetch is performed" is expressed as independence from that
parameter.  Float-valued columns are modelled as exact rationals: every claim
below uses only comparisons and equality of these values, never rounding.
-/

/-! ### Gapminder data model (`project6/gapmider_dashboard_with_Taps.py`)

One row of `gapminder_df` after the `Year` column has been normalised to an
integer year (`gapminder_df["Year"] = gapminder_df["Year"].dt.year`).
Only the columns the chart factories touch are modelled. -/

structure GapRow where
  country : String
  continent : String
  year : Int
  population : Rat
  gdpPerCapita : Rat
  lifeExpectancy : Rat
  isoAlphaCode : String
deriving DecidableEq, Repr

/-- The row filter shared by the three bar-chart factories:
`gapminder_df[(gapminder_df["Continent"] == continent) & (gapminder_df["Year"] == year)]`. -/
def filterContinentYear (df : List GapRow) (continent : String) (year : Int) : List GapRow :=
  df.filter (fun r => r.continent == continent && r.year == year)

/-- Model of `DataFrame.sort_values(by=key, ascending=False)`: the rows ordered
so that the key is descending.  It is realised as a stable ascending insertion
sort followed by a reversal of the whole list, which matches pandas
`nargsort(ascending=False)` (an ascending argsort of the reversed values whose
resulting indexer is reversed).  Claims proved about it use only that it is a
permutation producing a descending key order; tie order among equal keys is a
property of the library sort kind and is not relied upon by any theorem. -/
def sort_values_desc (key : GapRow → Rat) (rows : List GapRow) : List GapRow :=
  (List.insertionSort (fun a b => key a ≤ key b) rows).reverse

/-- A `plotly.express.bar` figure as produced by the three bar-chart
factories: the plotted rows plus the layout attributes the source sets. -/
structure BarFigure where
  data : List GapRow
  x : String
  y : String
  color : String
  title : String
  text_auto : Bool
  paper_bgcolor : String
  height : Nat
deriving DecidableEq, Repr

/-- `create_population_chart(continent="Asia", year=1952)`: filter to the
continent and year, keep the top 15 rows by `Population` descending, plot as
a bar chart of Population by Country. -/
def create_population_chart (df : List GapRow) (continent : String := "Asia")
    (year : Int := 1952) : BarFigure :=
  let filtered_df := filterContinentYear df continent year
  let ranked := (sort_values_desc (fun r => r.population) filtered_df).take 15
  { data := ranked
    x := "Country"
    y := "Population"
    color := "Country"
    title := "Country Population for " ++ continent ++ " Continent in " ++ toString year
    text_auto := true
    paper_bgcolor := "#e5ecf6"
    height := 600 }

/-- `create_gdp_chart(continent="Asia", year=1952)`: filter to the continent
and year, keep the top 15 rows by `GDP per Capita` descending. -/
def create_gdp_chart (df : List GapRow) (continent : String := "Asia")
    (year : Int := 1952) : BarFigure :=
  let filtered_df := filterContinentYear df continent year
  let ranked := (sort_values_desc (fun r => r.gdpPerCapita) filtered_df).take 15
  { data := ranked
    x := "Country"
    y := "GDP per Capita"
    color := "Country"
    title := "Country GDP per Capita for " ++ continent ++ " Continent in " ++ toString year
    text_auto := true
    paper_bgcolor := "#e5ecf6"
    height := 600 }

/-- `create_life_exp_chart(continent="Asia", year=1952)`: filter to the
continent and year, keep the top 15 rows by `Life Expectancy` descending. -/
def create_life_exp_chart (df : List GapRow) (continent : String := "Asia")
    (year : Int := 1952) : BarFigure :=
  let filtered_df := filterContinentYear df continent year
  let ranked := (sort_values_desc (fun r => r.lifeExpectancy) filtered_df).take 15
  { data := ranked
    x := "Country"
    y := "Life Expectancy"
    color := "Country"
    title := "Country Life Expectancy for " ++ continent ++ " Continent in " ++ toString year
    text_auto := true
    paper_bgcolor := "#e5ecf6"
    height := 600 }

/-- A `plotly.express.choropleth` figure as produced by `create_choropleth_map`. -/
structure ChoroplethFigure where
  data : List GapRow
  color : String
  locations : String
  locationmode : String
  color_continuous_scale : String
  title : String
  paper_bgcolor : String
  height : Nat
deriving DecidableEq, Repr

/-- `create_choropleth_map(variable, year)`: filter the dataset to the rows of
the requested year (`gapminder_df[gapminder_df["Year"] == year]`) and plot the
selected variable on a world map keyed by the ISO-3 country code. -/
def create_choropleth_map (df : List GapRow) (var : String) (year : Int) :
    ChoroplethFigure :=
  let filtered_df := df.filter (fun r => r.year == year)
  { data := filtered_df
    color := var
    locations := "ISO Alpha Country Code"
    locationmode := "ISO-3"
    color_continuous_scale := "RdYlBu"
    title := var ++ " Choropleth Map [" ++ toString year ++ "]"
    paper_bgcolor := "#e5ecf6"
    height := 600 }

/-- The specification the top-15 ranking of a bar-chart factory must satisfy
for a key function `key`: at most 15 rows, key descending, and every row drawn
from the dataset with the requested continent and year. -/
def Top15Spec (key : GapRow → Rat) (df : List GapRow) (continent : String)
    (year : Int) (out : List GapRow) : Prop :=
  out.length ≤ 15 ∧
  List.Sorted (fun a b => key b ≤ key a) out ∧
  ∀ r ∈ out, r ∈ df ∧ r.continent = continent ∧ r.year = year

/-! ### Housing histogram app (`project4/table_and_figure_app.py`)

The housing dataframe is modelled as a list of named columns of rationals;
`px.histogram(df, x=selected_feature)` keeps the selected column as the data
series and delegates bucketisation to the renderer. -/

structure HistFigure where
  x : List Rat
  title : String
  xaxis_title : String
  yaxis_title : String
deriving DecidableEq, Repr

/-- `update_histogram(selected_feature)`: a histogram of the selected column,
with the title and axis labels set by `update_layout`. -/
def update_histogram (df : List (String × List Rat)) (selected_feature : String) :
    HistFigure :=
  { x := match df.find? (fun p => p.1 == selected_feature) with
         | some p => p.2
         | none => []
    title := "Histogram of " ++ selected_feature
    xaxis_title := selected_feature
    yaxis_title := "Frequency" }

/-! ### Stock candlestick apps (`project5/real_time_stock_chart.py` and
`project5/real_time_stock_chart2.py`)

The result of `yf.download(ticker, start, end, group_by="column")` is a
dataframe with a date index, a column index that is either flat or a
two-level MultiIndex (field label paired with ticker label), and one list of
cell values per column.  The download itself is an explicit function
parameter of the callbacks. -/

inductive ColIndex where
  | flat : List String → ColIndex
  | multi : List (String × String) → ColIndex
deriving DecidableEq, Repr

/-- Labels after `df.columns.get_level_values(0)`: a flat index is unchanged,
a MultiIndex keeps the first level of each column key.  The source applies
this flattening exactly when the index is a MultiIndex, which is the identity
on a flat index, so every later column lookup sees these labels. -/
def ColIndex.level0 : ColIndex → List String
  | .flat labels => labels
  | .multi labels => labels.map Prod.fst

structure StockDF where
  dates : List String
  colIndex : ColIndex
  values : List (List Rat)
deriving DecidableEq, Repr

/-- `DataFrame.empty`: true when either axis has length zero. -/
def StockDF.empty (df : StockDF) : Bool :=
  df.dates.isEmpty || df.colIndex.level0.isEmpty

/-- Column access `df[label]` after flattening: the cell values of the first
column carrying the label (all lookups in the source happen after the
MultiIndex has been collapsed and after the required-column validation, so
the default `[]` branch is never reached on the success path). -/
def StockDF.getCol (df : StockDF) (label : String) : List Rat :=
  match (df.colIndex.level0.zip df.values).find? (fun p => p.1 == label) with
  | some p => p.2
  | none => []

/-- The required-column list of the validation loop, in source order:
`for col in [Open, High, Low, Close]: if col not in df.columns: return ...`. -/
def required_cols : List String := ["Open", "High", "Low", "Close"]

/-- Truthiness of `if not n_clicks:`: true for `None` and for `0`. -/
def falsyClicks : Option Nat → Bool
  | none => true
  | some k => k == 0

/-- One `go.Candlestick` trace: the `x`, `open`, `high`, `low`, `close` and
`name` keyword arguments (`open`, `high`, `low`, `close` are shortened to
`op`, `hi`, `lo`, `cl` because `open` is a Lean keyword). -/
structure CandleTrace where
  x : List String
  op : List Rat
  hi : List Rat
  lo : List Rat
  cl : List Rat
  name : String
deriving DecidableEq, Repr

/-- A `go.Figure` as used by the candlestick callbacks: its trace list and
the layout fields the source ever sets.  `go.Figure()` is `Figure.emptyFigure`
(no traces, no layout fields). -/
structure Figure where
  data : List CandleTrace
  title : Option String
  template : Option String
  xaxis_title : Option String
  yaxis_title : Option String
  xaxis_rangeslider_visible : Option Bool
deriving DecidableEq, Repr

def Figure.emptyFigure : Figure :=
  { data := []
    title := none
    template := none
    xaxis_title := none
    yaxis_title := none
    xaxis_rangeslider_visible := none }

/-- The style dict returned for the chart container.  The first variant
returns `{visibility: ...}` (no flex key, modelled `flex = none`), the second
`{flex: 1, visibility: ...}`. -/
structure Style where
  flex : Option Nat
  visibility : String
deriving DecidableEq, Repr

namespace RealTimeStockChart

/-- `update_chart(n_clicks, ticker, start_date, end_date)` of
`project5/real_time_stock_chart.py`, with the network fetch `yf.download`
passed in as the function `download`.  Branches: initial load (falsy
`n_clicks`, hidden container, result independent of `download`), empty
download, first missing required column, and the successful candlestick. -/
def update_chart (download : String → String → String → StockDF)
    (n_clicks : Option Nat) (ticker start_date end_date : String) :
    Figure × Style :=
  if falsyClicks n_clicks then
    (Figure.emptyFigure, { flex := none, visibility := "hidden" })
  else
    let df := download ticker start_date end_date
    if df.empty then
      ({ Figure.emptyFigure with
          title := some "No data returned for this ticker/date range"
          template := some "plotly_dark"
          xaxis_title := some "Date"
          yaxis_title := some "Price (USD)" },
        { flex := none, visibility := "visible" })
    else
      match required_cols.find? (fun col => !(df.colIndex.level0.contains col)) with
      | some col =>
        ({ Figure.emptyFigure with
            title := some ("Missing \x27" ++ col ++ "\x27 data for " ++ ticker)
            template := some "plotly_dark"
            xaxis_title := some "Date"
            yaxis_title := some "Price (USD)" },
          { flex := none, visibility := "visible" })
      | none =>
        ({ data := [{ x := df.dates,
                      op := df.getCol "Open",
                      hi := df.getCol "High",
                      lo := df.getCol "Low",
                      cl := df.getCol "Close",
                      name := ticker }],
            title := some ("Candlestick Chart of " ++ ticker),
            template := some "plotly_dark",
            xaxis_title := some "Date",
            yaxis_title := some "Price (USD)",
            xaxis_rangeslider_visible := some false },
          { flex := none, visibility := "visible" })

end RealTimeStockChart

namespace RealTimeStockChart2

/-- `update_chart(n_clicks, ticker, start_date, end_date)` of
`project5/real_time_stock_chart2.py`.  Same branch structure as the first
variant; the differences are the style dict (`flex: 1` key), the error-title
wording (trailing period, no axis titles on error figures) and the
upper-cased ticker in the success trace name and title. -/
def update_chart (download : String → String → String → StockDF)
    (n_clicks : Option Nat) (ticker start_date end_date : String) :
    Figure × Style :=
  if falsyClicks n_clicks then
    (Figure.emptyFigure, { flex := some 1, visibility := "hidden" })
  else
    let df := download ticker start_date end_date
    if df.empty then
      ({ Figure.emptyFigure with
          title := some "No data returned for this ticker or date range."
          template := some "plotly_dark" },
        { flex := some 1, visibility := "visible" })
    else
      match required_cols.find? (fun col => !(df.colIndex.level0.contains col)) with
      | some col =>
        ({ Figure.emptyFigure with
            title := some ("Missing \x27" ++ col ++ "\x27 data for " ++ ticker ++ ".")
            template := some "plotly_dark" },
          { flex := some 1, visibility := "visible" })
      | none =>
        ({ data := [{ x := df.dates,
                      op := df.getCol "Open",
                      hi := df.getCol "High",
                      lo := df.getCol "Low",
                      cl := df.getCol "Close",
                      name := ticker.toUpper }],
            title := some ("Candlestick Chart of " ++ ticker.toUpper),
            template := some "plotly_dark",
            xaxis_title := some "Date",
            yaxis_title := some "Price (USD)",
            xaxis_rangeslider_visible := some false },
          { flex := some 1, visibility := "visible" })

end RealTimeStockChart2

/-- The candlestick series content of a trace, forgetting the trace name:
used to compare the two callback variants, whose trace names differ only by
ticker casing. -/
def traceSeries (t : CandleTrace) :
    List String × List Rat × List Rat × List Rat × List Rat :=
  (t.x, t.op, t.hi, t.lo, t.cl)

/-- A download that returns an empty dataframe for every request (the
observable behaviour of `yf.download` on an unknown ticker or an empty date
range). -/
def emptyDownload : String → String → String → StockDF :=
  fun _ _ _ => ⟨[], ColIndex.flat [], []⟩

/-- A download returning one row with flat columns Open, High, Low but no
Close column. -/
def missingCloseDownload : String → String → String → StockDF :=
  fun _ _ _ => ⟨["2024-01-02"], ColIndex.flat ["Open", "High", "Low"], [[1], [2], [3]]⟩

/-- A download returning one row whose MultiIndex columns flatten to Open and
Close only, so both High and Low are missing. -/
def missingHighLowDownload : String → String → String → StockDF :=
  fun _ _ _ =>
    ⟨["2024-01-02"], ColIndex.multi [("Open", "AAPL"), ("Close", "AAPL")], [[1], [2]]⟩

/-- A download returning two rows with all four required columns present
under a MultiIndex, as `yf.download(..., group_by="column")` delivers them. -/
def fullDownload : String → String → String → StockDF :=
  fun _ _ _ =>
    ⟨["2024-01-02", "2024-01-03"],
      ColIndex.multi
        [("Open", "AAPL"), ("High", "AAPL"), ("Low", "AAPL"), ("Close", "AAPL")],
      [[1, 2], [3, 4], [(1 : Rat) / 2, 1], [2, 3]]⟩

/-! ### Helper lemmas for the ranked bar charts -/

theorem sort_values_desc_perm (key : GapRow → Rat) (rows : List GapRow) :
    (sort_values_desc key rows).Perm rows := by
  unfold sort_values_desc
  exact (List.reverse_perm _).trans (List.perm_insertionSort _ rows)

theorem sort_values_desc_sorted (key : GapRow → Rat) (rows : List GapRow) :
    List.Sorted (fun a b => key b ≤ key a) (sort_values_desc key rows) := by
  unfold sort_values_desc
  haveI : IsTotal GapRow (fun a b => key a ≤ key b) := ⟨fun a b => le_total _ _⟩
  haveI : IsTrans GapRow (fun a b => key a ≤ key b) :=
    ⟨fun a b c hab hbc => le_trans hab hbc⟩
  have h := List.sorted_insertionSort (fun a b => key a ≤ key b) rows
  exact (List.pairwise_reverse).mpr h

theorem mem_filterContinentYear {df : List GapRow} {continent : String} {year : Int}
    {r : GapRow} (h : r ∈ filterContinentYear df continent year) :
    r ∈ df ∧ r.continent = continent ∧ r.year = year := by
  unfold filterContinentYear at h
  have h' := List.mem_filter.mp h
  refine ⟨h'.1, ?_, ?_⟩
  · have := h'.2
    simp only [Bool.and_eq_true, beq_iff_eq] at this
    exact this.1
  · have := h'.2
    simp only [Bool.and_eq_true, beq_iff_eq] at this
    exact this.2

theorem top15_spec (key : GapRow → Rat) (df : List GapRow) (continent : String)
    (year : Int) :
    Top15Spec key df continent year
      ((sort_values_desc key (filterContinentYear df continent year)).take 15) := by
  refine ⟨List.length_take_le 15 _, ?_, ?_⟩
  · exact (sort_values_desc_sorted key _).sublist (List.take_sublist 15 _)
  · intro r hr
    have hmem : r ∈ sort_values_desc key (filterContinentYear df continent year) :=
      List.mem_of_mem_take hr
    have hfil : r ∈ filterContinentYear df continent year :=
      (sort_values_desc_perm key _).mem_iff.mp hmem
    exact mem_filterContinentYear hfil

/-! ### Claim theorems for the Gapminder and histogram apps -/

/-- C1: For every dataset, continent and year — in particular for every
(continent, year) pair present in the Gapminder dataset — each of the three
bar-chart factories returns a figure whose data has at most 15 rows, is sorted
descending by the metric of the factory (Population, GDP per Capita, Life
Expectancy respectively), and consists only of dataset rows whose Continent
and Year equal the requested ones. -/
theorem bar_builders_top15_sorted_filtered (df : List GapRow) (continent : String)
    (year : Int) :
    Top15Spec (fun r => r.population) df continent year
        (create_population_chart df continent year).data ∧
    Top15Spec (fun r => r.gdpPerCapita) df continent year
        (create_gdp_chart df continent year).data ∧
    Top15Spec (fun r => r.lifeExpectancy) df continent year
        (create_life_exp_chart df continent year).data :=
  ⟨top15_spec _ df continent year, top15_spec _ df continent year,
    top15_spec _ df continent year⟩

/-- C5: For every dataset, year and variable, the data of the choropleth factory is
exactly the rows of the dataset whose Year equals the requested year; in
particular every row of the figure has that year and no row with any other
year appears. -/
theorem choropleth_only_requested_year (df : List GapRow) (var : String)
    (year : Int) :
    (create_choropleth_map df var year).data
        = df.filter (fun r => r.year == year) ∧
    ∀ r ∈ (create_choropleth_map df var year).data,
      r ∈ df ∧ r.year = year := by
  refine ⟨rfl, ?_⟩
  intro r hr
  have h := List.mem_filter.mp hr
  exact ⟨h.1, by simpa using h.2⟩

/-! ### Helper lemmas for the candlestick callbacks -/

theorem find?_required_of_unique_missing (cols : List String) (col : String)
    (hcol : col ∈ required_cols)
    (hmissing : cols.contains col = false)
    (hothers : ∀ c ∈ required_cols, c ≠ col → cols.contains c = true) :
    required_cols.find? (fun c => !(cols.contains c)) = some col := by
  have hO := fun h => hothers "Open" (by decide) h
  have hH := fun h => hothers "High" (by decide) h
  have hL := fun h => hothers "Low" (by decide) h
  simp only [required_cols, List.mem_cons, List.not_mem_nil, or_false] at hcol
  rcases hcol with rfl | rfl | rfl | rfl
  · show List.find? _ ("Open" :: _) = _
    rw [List.find?_cons_of_pos _ (by rw [hmissing]; rfl)]
  · show List.find? _ ("Open" :: "High" :: _) = _
    rw [List.find?_cons_of_neg _ (by rw [hO (by decide)]; exact Bool.false_ne_true),
      List.find?_cons_of_pos _ (by rw [hmissing]; rfl)]
  · show List.find? _ ("Open" :: "High" :: "Low" :: _) = _
    rw [List.find?_cons_of_neg _ (by rw [hO (by decide)]; exact Bool.false_ne_true),
      List.find?_cons_of_neg _ (by rw [hH (by decide)]; exact Bool.false_ne_true),
      List.find?_cons_of_pos _ (by rw [hmissing]; rfl)]
  · show List.find? _ ("Open" :: "High" :: "Low" :: "Close" :: _) = _
    rw [List.find?_cons_of_neg _ (by rw [hO (by decide)]; exact Bool.false_ne_true),
      List.find?_cons_of_neg _ (by rw [hH (by decide)]; exact Bool.false_ne_true),
      List.find?_cons_of_neg _ (by rw [hL (by decide)]; exact Bool.false_ne_true),
      List.find?_cons_of_pos _ (by rw [hmissing]; rfl)]

theorem find?_required_isSome_of_two_missing (cols : List String)
    (h : 2 ≤ (required_cols.filter (fun c => !(cols.contains c))).length) :
    ∃ col, required_cols.find? (fun c => !(cols.contains c)) = some col := by
  have hne : required_cols.filter (fun c => !(cols.contains c)) ≠ [] := by
    intro hnil
    rw [hnil] at h
    simp at h
  obtain ⟨x, hx⟩ := List.exists_mem_of_ne_nil _ hne
  have hx' := List.mem_filter.mp hx
  have : (required_cols.find? (fun c => !(cols.contains c))).isSome := by
    rw [List.find?_isSome]
    exact ⟨x, hx'.1, hx'.2⟩
  exact Option.isSome_iff_exists.mp this

/-! ### Claim theorems for the candlestick callbacks -/

/-- C4: On initial page load, i.e. when the submission count is zero or
absent (`if not n_clicks`), both candlestick callbacks return the empty
figure together with a container style whose visibility is "hidden", and the
result does not depend on the download function at all, modelling that no
network fetch is consulted. -/
theorem candlestick_initial_load_hidden (n_clicks : Option Nat)
    (ticker start_date end_date : String)
    (h : falsyClicks n_clicks = true) :
    (∀ download,
      RealTimeStockChart.update_chart download n_clicks ticker start_date end_date
        = (Figure.emptyFigure, { flex := none, visibility := "hidden" })) ∧
    (∀ download,
      RealTimeStockChart2.update_chart download n_clicks ticker start_date end_date
        = (Figure.emptyFigure, { flex := some 1, visibility := "hidden" })) ∧
    (∀ d1 d2,
      RealTimeStockChart.update_chart d1 n_clicks ticker start_date end_date
        = RealTimeStockChart.update_chart d2 n_clicks ticker start_date end_date) ∧
    (∀ d1 d2,
      RealTimeStockChart2.update_chart d1 n_clicks ticker start_date end_date
        = RealTimeStockChart2.update_chart d2 n_clicks ticker start_date end_date) := by
  refine ⟨?_, ?_, ?_, ?_⟩ <;> intros <;>
    simp [RealTimeStockChart.update_chart, RealTimeStockChart2.update_chart, h]

theorem candlestick_initial_load_hidden_witness :
    falsyClicks (some 0) = true ∧
    RealTimeStockChart.update_chart emptyDownload (some 0) "AAPL" "2023-01-01"
        "2025-01-01"
      = (Figure.emptyFigure, { flex := none, visibility := "hidden" }) :=
  ⟨by decide,
    (candlestick_initial_load_hidden (some 0) "AAPL" "2023-01-01" "2025-01-01"
      (by decide)).1 emptyDownload⟩

/-- C2: When the download returns an empty dataframe (unknown ticker or a
date range with zero trading days) and there has been at least one
submission, both candlestick callbacks return a figure whose trace list is
empty and whose title is exactly the no-data message of that variant — a
non-empty title indicating the empty result — with a container style whose
visibility is "visible". -/
theorem candlestick_empty_fetch_reported
    (download : String → String → String → StockDF) (n_clicks : Option Nat)
    (ticker start_date end_date : String)
    (hclicks : falsyClicks n_clicks = false)
    (hempty : (download ticker start_date end_date).empty = true) :
    ((RealTimeStockChart.update_chart download n_clicks ticker start_date end_date).1.data
        = [] ∧
      (RealTimeStockChart.update_chart download n_clicks ticker start_date
          end_date).1.title = some "No data returned for this ticker/date range" ∧
      (RealTimeStockChart.update_chart download n_clicks ticker start_date
          end_date).2.visibility = "visible") ∧
    ((RealTimeStockChart2.update_chart download n_clicks ticker start_date end_date).1.data
        = [] ∧
      (RealTimeStockChart2.update_chart download n_clicks ticker start_date
          end_date).1.title = some "No data returned for this ticker or date range." ∧
      (RealTimeStockChart2.update_chart download n_clicks ticker start_date
          end_date).2.visibility = "visible") ∧
    (∃ t, (RealTimeStockChart.update_chart download n_clicks ticker start_date
        end_date).1.title = some t ∧ t ≠ "") ∧
    (∃ t, (RealTimeStockChart2.update_chart download n_clicks ticker start_date
        end_date).1.title = some t ∧ t ≠ "") := by
  have e1 : RealTimeStockChart.update_chart download n_clicks ticker start_date end_date
      = ({ Figure.emptyFigure with
            title := some "No data returned for this ticker/date range",
            template := some "plotly_dark",
            xaxis_title := some "Date",
            yaxis_title := some "Price (USD)" },
          { flex := none, visibility := "visible" }) := by
    simp [RealTimeStockChart.update_chart, hclicks, hempty]
  have e2 : RealTimeStockChart2.update_chart download n_clicks ticker start_date end_date
      = ({ Figure.emptyFigure with
            title := some "No data returned for this ticker or date range.",
            template := some "plotly_dark" },
          { flex := some 1, visibility := "visible" }) := by
    simp [RealTimeStockChart2.update_chart, hclicks, hempty]
  rw [e1, e2]
  exact ⟨⟨rfl, rfl, rfl⟩, ⟨rfl, rfl, rfl⟩, ⟨_, rfl, by decide⟩, ⟨_, rfl, by decide⟩⟩

theorem candlestick_empty_fetch_reported_witness :
    falsyClicks (some 1) = false ∧
    (emptyDownload "ZZZZ" "2023-01-01" "2023-01-02").empty = true ∧
    ((RealTimeStockChart.update_chart emptyDownload (some 1) "ZZZZ" "2023-01-01"
        "2023-01-02").1.data = [] ∧
      (RealTimeStockChart.update_chart emptyDownload (some 1) "ZZZZ" "2023-01-01"
          "2023-01-02").1.title
        = some "No data returned for this ticker/date range" ∧
      (RealTimeStockChart.update_chart emptyDownload (some 1) "ZZZZ" "2023-01-01"
          "2023-01-02").2.visibility = "visible") ∧
    ((RealTimeStockChart2.update_chart emptyDownload (some 1) "ZZZZ" "2023-01-01"
        "2023-01-02").1.data = [] ∧
      (RealTimeStockChart2.update_chart emptyDownload (some 1) "ZZZZ" "2023-01-01"
          "2023-01-02").1.title
        = some "No data returned for this ticker or date range." ∧
      (RealTimeStockChart2.update_chart emptyDownload (some 1) "ZZZZ" "2023-01-01"
          "2023-01-02").2.visibility = "visible") ∧
    (∃ t, (RealTimeStockChart.update_chart emptyDownload (some 1) "ZZZZ" "2023-01-01"
        "2023-01-02").1.title = some t ∧ t ≠ "") ∧
    (∃ t, (RealTimeStockChart2.update_chart emptyDownload (some 1) "ZZZZ" "2023-01-01"
        "2023-01-02").1.title = some t ∧ t ≠ "") :=
  ⟨by decide, by decide,
    candlestick_empty_fetch_reported emptyDownload (some 1) "ZZZZ" "2023-01-01"
      "2023-01-02" (by decide) (by decide)⟩

/-- C3: When the download is non-empty but, after the column index is
flattened to its first level, exactly one of the four required fields Open,
High, Low, Close is absent, both candlestick callbacks return (rather than
raise) an empty-trace figure whose title names exactly that missing field,
with container visibility "visible". -/
theorem candlestick_missing_column_reported
    (download : String → String → String → StockDF) (n_clicks : Option Nat)
    (ticker start_date end_date col : String)
    (hclicks : falsyClicks n_clicks = false)
    (hnonempty : (download ticker start_date end_date).empty = false)
    (hcol : col ∈ required_cols)
    (hmissing :
      (download ticker start_date end_date).colIndex.level0.contains col = false)
    (hothers : ∀ c ∈ required_cols, c ≠ col →
      (download ticker start_date end_date).colIndex.level0.contains c = true) :
    ((RealTimeStockChart.update_chart download n_clicks ticker start_date
        end_date).1.data = [] ∧
      (RealTimeStockChart.update_chart download n_clicks ticker start_date
          end_date).1.title
        = some ("Missing \x27" ++ col ++ "\x27 data for " ++ ticker) ∧
      (RealTimeStockChart.update_chart download n_clicks ticker start_date
          end_date).2.visibility = "visible") ∧
    ((RealTimeStockChart2.update_chart download n_clicks ticker start_date
        end_date).1.data = [] ∧
      (RealTimeStockChart2.update_chart download n_clicks ticker start_date
          end_date).1.title
        = some ("Missing \x27" ++ col ++ "\x27 data for " ++ ticker ++ ".") ∧
      (RealTimeStockChart2.update_chart download n_clicks ticker start_date
          end_date).2.visibility = "visible") := by
  have hfind := find?_required_of_unique_missing
    (download ticker start_date end_date).colIndex.level0 col hcol hmissing hothers
  have hfindD : List.find?
      (fun c => !decide (c ∈ (download ticker start_date end_date).colIndex.level0))
      required_cols = some col := by
    simpa using hfind
  have e1 : RealTimeStockChart.update_chart download n_clicks ticker start_date end_date
      = ({ Figure.emptyFigure with
            title := some ("Missing \x27" ++ col ++ "\x27 data for " ++ ticker),
            template := some "plotly_dark",
            xaxis_title := some "Date",
            yaxis_title := some "Price (USD)" },
          { flex := none, visibility := "visible" }) := by
    simp [RealTimeStockChart.update_chart, hclicks, hnonempty, hfindD]
  have e2 : RealTimeStockChart2.update_chart download n_clicks ticker start_date end_date
      = ({ Figure.emptyFigure with
            title := some ("Missing \x27" ++ col ++ "\x27 data for " ++ ticker ++ "."),
            template := some "plotly_dark" },
          { flex := some 1, visibility := "visible" }) := by
    simp [RealTimeStockChart2.update_chart, hclicks, hnonempty, hfindD]
  rw [e1, e2]
  exact ⟨⟨rfl, rfl, rfl⟩, ⟨rfl, rfl, rfl⟩⟩

theorem candlestick_missing_column_reported_witness :
    falsyClicks (some 1) = false ∧
    (missingCloseDownload "AAPL" "2024-01-01" "2024-02-01").empty = false ∧
    "Close" ∈ required_cols ∧
    (missingCloseDownload "AAPL" "2024-01-01"
        "2024-02-01").colIndex.level0.contains "Close" = false ∧
    ((RealTimeStockChart.update_chart missingCloseDownload (some 1) "AAPL" "2024-01-01"
        "2024-02-01").1.data = [] ∧
      (RealTimeStockChart.update_chart missingCloseDownload (some 1) "AAPL" "2024-01-01"
          "2024-02-01").1.title
        = some ("Missing \x27" ++ "Close" ++ "\x27 data for " ++ "AAPL") ∧
      (RealTimeStockChart.update_chart missingCloseDownload (some 1) "AAPL" "2024-01-01"
          "2024-02-01").2.visibility = "visible") ∧
    ((RealTimeStockChart2.update_chart missingCloseDownload (some 1) "AAPL" "2024-01-01"
        "2024-02-01").1.data = [] ∧
      (RealTimeStockChart2.update_chart missingCloseDownload (some 1) "AAPL" "2024-01-01"
          "2024-02-01").1.title
        = some ("Missing \x27" ++ "Close" ++ "\x27 data for " ++ "AAPL" ++ ".") ∧
      (RealTimeStockChart2.update_chart missingCloseDownload (some 1) "AAPL" "2024-01-01"
          "2024-02-01").2.visibility = "visible") :=
  ⟨by decide, by decide, by decide, by decide,
    candlestick_missing_column_reported missingCloseDownload (some 1) "AAPL"
      "2024-01-01" "2024-02-01" "Close" (by decide) (by decide) (by decide)
      (by decide) (by decide)⟩

/-- C9: When more than one required column is missing after normalization,
the error title of both candlestick callbacks names the first missing column
in the fixed order Open, High, Low, Close: the reported column is exactly the
result of `find?` over `required_cols`, the first label of that list that
fails the membership test. -/
theorem candlestick_first_missing_column_wins
    (download : String → String → String → StockDF) (n_clicks : Option Nat)
    (ticker start_date end_date : String)
    (hclicks : falsyClicks n_clicks = false)
    (hnonempty : (download ticker start_date end_date).empty = false)
    (hmulti : 2 ≤ (required_cols.filter
      (fun c =>
        !((download ticker start_date end_date).colIndex.level0.contains c))).length) :
    ∃ col,
      required_cols.find?
          (fun c => !((download ticker start_date end_date).colIndex.level0.contains c))
        = some col ∧
      (RealTimeStockChart.update_chart download n_clicks ticker start_date
          end_date).1.title
        = some ("Missing \x27" ++ col ++ "\x27 data for " ++ ticker) ∧
      (RealTimeStockChart2.update_chart download n_clicks ticker start_date
          end_date).1.title
        = some ("Missing \x27" ++ col ++ "\x27 data for " ++ ticker ++ ".") := by
  obtain ⟨col, hfind⟩ := find?_required_isSome_of_two_missing
    (download ticker start_date end_date).colIndex.level0 hmulti
  have hfindD : List.find?
      (fun c => !decide (c ∈ (download ticker start_date end_date).colIndex.level0))
      required_cols = some col := by
    simpa using hfind
  refine ⟨col, hfind, ?_, ?_⟩
  · simp [RealTimeStockChart.update_chart, hclicks, hnonempty, hfindD]
  · simp [RealTimeStockChart2.update_chart, hclicks, hnonempty, hfindD]

theorem candlestick_first_missing_column_wins_witness :
    falsyClicks (some 1) = false ∧
    (missingHighLowDownload "AAPL" "2024-01-01" "2024-02-01").empty = false ∧
    2 ≤ (required_cols.filter
      (fun c =>
        !((missingHighLowDownload "AAPL" "2024-01-01"
            "2024-02-01").colIndex.level0.contains c))).length ∧
    (∃ col,
      required_cols.find?
          (fun c =>
            !((missingHighLowDownload "AAPL" "2024-01-01"
                "2024-02-01").colIndex.level0.contains c))
        = some col ∧
      (RealTimeStockChart.update_chart missingHighLowDownload (some 1) "AAPL"
          "2024-01-01" "2024-02-01").1.title
        = some ("Missing \x27" ++ col ++ "\x27 data for " ++ "AAPL") ∧
      (RealTimeStockChart2.update_chart missingHighLowDownload (some 1) "AAPL"
          "2024-01-01" "2024-02-01").1.title
        = some ("Missing \x27" ++ col ++ "\x27 data for " ++ "AAPL" ++ ".")) ∧
    required_cols.find?
        (fun c =>
          !((missingHighLowDownload "AAPL" "2024-01-01"
              "2024-02-01").colIndex.level0.contains c))
      = some "High" :=
  ⟨by decide, by decide, by decide,
    candlestick_first_missing_column_wins missingHighLowDownload (some 1) "AAPL"
      "2024-01-01" "2024-02-01" (by decide) (by decide) (by decide),
    by decide⟩

/-- C7: On every failing submission — an empty download, or a non-empty one
with some required column missing after flattening — both candlestick
callbacks return a figure of the same shape the success path would fill (a
`Figure` whose series is a list of candlestick traces), with that series
empty and container visibility "visible", and the title communicates the
specific failure: on an empty download it is exactly the no-data message of
that variant, otherwise it is exactly the missing-column message naming the
first missing required field. -/
theorem candlestick_error_path_shape
    (download : String → String → String → StockDF) (n_clicks : Option Nat)
    (ticker start_date end_date : String)
    (hclicks : falsyClicks n_clicks = false)
    (herr : (download ticker start_date end_date).empty = true ∨
      ((download ticker start_date end_date).empty = false ∧
        ∃ col, required_cols.find?
            (fun c =>
              !((download ticker start_date end_date).colIndex.level0.contains c))
          = some col)) :
    ((RealTimeStockChart.update_chart download n_clicks ticker start_date
        end_date).1.data = ([] : List CandleTrace) ∧
      (RealTimeStockChart.update_chart download n_clicks ticker start_date
          end_date).2.visibility = "visible") ∧
    ((RealTimeStockChart2.update_chart download n_clicks ticker start_date
        end_date).1.data = ([] : List CandleTrace) ∧
      (RealTimeStockChart2.update_chart download n_clicks ticker start_date
          end_date).2.visibility = "visible") ∧
    (((download ticker start_date end_date).empty = true ∧
        (RealTimeStockChart.update_chart download n_clicks ticker start_date
            end_date).1.title = some "No data returned for this ticker/date range" ∧
        (RealTimeStockChart2.update_chart download n_clicks ticker start_date
            end_date).1.title
          = some "No data returned for this ticker or date range.") ∨
      (∃ col, required_cols.find?
            (fun c =>
              !((download ticker start_date end_date).colIndex.level0.contains c))
          = some col ∧
        (RealTimeStockChart.update_chart download n_clicks ticker start_date
            end_date).1.title
          = some ("Missing \x27" ++ col ++ "\x27 data for " ++ ticker) ∧
        (RealTimeStockChart2.update_chart download n_clicks ticker start_date
            end_date).1.title
          = some ("Missing \x27" ++ col ++ "\x27 data for " ++ ticker ++ "."))) := by
  rcases herr with he | ⟨he, col, hfind⟩
  · have e1 : RealTimeStockChart.update_chart download n_clicks ticker start_date end_date
        = ({ Figure.emptyFigure with
              title := some "No data returned for this ticker/date range",
              template := some "plotly_dark",
              xaxis_title := some "Date",
              yaxis_title := some "Price (USD)" },
            { flex := none, visibility := "visible" }) := by
      simp [RealTimeStockChart.update_chart, hclicks, he]
    have e2 : RealTimeStockChart2.update_chart download n_clicks ticker start_date end_date
        = ({ Figure.emptyFigure with
              title := some "No data returned for this ticker or date range.",
              template := some "plotly_dark" },
            { flex := some 1, visibility := "visible" }) := by
      simp [RealTimeStockChart2.update_chart, hclicks, he]
    rw [e1, e2]
    exact ⟨⟨rfl, rfl⟩, ⟨rfl, rfl⟩, Or.inl ⟨he, rfl, rfl⟩⟩
  · have hfindD : List.find?
        (fun c => !decide (c ∈ (download ticker start_date end_date).colIndex.level0))
        required_cols = some col := by
      simpa using hfind
    have e1 : RealTimeStockChart.update_chart download n_clicks ticker start_date end_date
        = ({ Figure.emptyFigure with
              title := some ("Missing \x27" ++ col ++ "\x27 data for " ++ ticker),
              template := some "plotly_dark",
              xaxis_title := some "Date",
              yaxis_title := some "Price (USD)" },
            { flex := none, visibility := "visible" }) := by
      simp [RealTimeStockChart.update_chart, hclicks, he, hfindD]
    have e2 : RealTimeStockChart2.update_chart download n_clicks ticker start_date end_date
        = ({ Figure.emptyFigure with
              title := some ("Missing \x27" ++ col ++ "\x27 data for " ++ ticker ++ "."),
              template := some "plotly_dark" },
            { flex := some 1, visibility := "visible" }) := by
      simp [RealTimeStockChart2.update_chart, hclicks, he, hfindD]
    rw [e1, e2]
    exact ⟨⟨rfl, rfl⟩, ⟨rfl, rfl⟩, Or.inr ⟨col, hfind, rfl, rfl⟩⟩

theorem candlestick_error_path_shape_witness :
    falsyClicks (some 2) = false ∧
    (emptyDownload "ZZZZ" "2023-01-01" "2023-01-02").empty = true ∧
    ((RealTimeStockChart.update_chart emptyDownload (some 2) "ZZZZ" "2023-01-01"
        "2023-01-02").1.data = ([] : List CandleTrace) ∧
      (RealTimeStockChart.update_chart emptyDownload (some 2) "ZZZZ" "2023-01-01"
          "2023-01-02").2.visibility = "visible") ∧
    ((RealTimeStockChart2.update_chart emptyDownload (some 2) "ZZZZ" "2023-01-01"
        "2023-01-02").1.data = ([] : List CandleTrace) ∧
      (RealTimeStockChart2.update_chart emptyDownload (some 2) "ZZZZ" "2023-01-01"
          "2023-01-02").2.visibility = "visible") ∧
    (((emptyDownload "ZZZZ" "2023-01-01" "2023-01-02").empty = true ∧
        (RealTimeStockChart.update_chart emptyDownload (some 2) "ZZZZ" "2023-01-01"
            "2023-01-02").1.title
          = some "No data returned for this ticker/date range" ∧
        (RealTimeStockChart2.update_chart emptyDownload (some 2) "ZZZZ" "2023-01-01"
            "2023-01-02").1.title
          = some "No data returned for this ticker or date range.") ∨
      (∃ col, required_cols.find?
            (fun c =>
              !((emptyDownload "ZZZZ" "2023-01-01"
                  "2023-01-02").colIndex.level0.contains c))
          = some col ∧
        (RealTimeStockChart.update_chart emptyDownload (some 2) "ZZZZ" "2023-01-01"
            "2023-01-02").1.title
          = some ("Missing \x27" ++ col ++ "\x27 data for " ++ "ZZZZ") ∧
        (RealTimeStockChart2.update_chart emptyDownload (some 2) "ZZZZ" "2023-01-01"
            "2023-01-02").1.title
          = some ("Missing \x27" ++ col ++ "\x27 data for " ++ "ZZZZ" ++ "."))) :=
  ⟨by decide, by decide,
    candlestick_error_path_shape emptyDownload (some 2) "ZZZZ" "2023-01-01"
      "2023-01-02" (by decide) (Or.inl (by decide))⟩

/-- C8: Every chart builder of the repository is deterministic: invoked twice
with identical inputs (including the same dataset or download result), it
returns value-equal outputs.  In this embedding each builder is a pure
function of exactly those inputs — the source callbacks read nothing but
their arguments, the immutable module-level dataframe and the download
result — so the two invocations are the same application. -/
theorem builders_deterministic :
    (∀ df feature, update_histogram df feature = update_histogram df feature) ∧
    (∀ df continent year,
      create_population_chart df continent year
        = create_population_chart df continent year) ∧
    (∀ df continent year,
      create_gdp_chart df continent year = create_gdp_chart df continent year) ∧
    (∀ df continent year,
      create_life_exp_chart df continent year
        = create_life_exp_chart df continent year) ∧
    (∀ df v year, create_choropleth_map df v year = create_choropleth_map df v year) ∧
    (∀ download n_clicks ticker start_date end_date,
      RealTimeStockChart.update_chart download n_clicks ticker start_date end_date
        = RealTimeStockChart.update_chart download n_clicks ticker start_date end_date) ∧
    (∀ download n_clicks ticker start_date end_date,
      RealTimeStockChart2.update_chart download n_clicks ticker start_date end_date
        = RealTimeStockChart2.update_chart download n_clicks ticker start_date end_date) :=
  by refine ⟨?_, ?_, ?_, ?_, ?_, ?_, ?_⟩ <;> intros <;> rfl

/-- C10 counterexample: at the concrete input n_clicks = 1, ticker "AAPL",
with a download that returns the empty dataframe, the two `update_chart`
variants return different values — already their container styles differ
(`{visibility: visible}` against `{flex: 1, visibility: visible}`) and their
empty-result titles are worded differently. -/
theorem update_chart_variants_differ :
    RealTimeStockChart.update_chart emptyDownload (some 1) "AAPL" "2023-01-01"
        "2025-01-01"
      ≠ RealTimeStockChart2.update_chart emptyDownload (some 1) "AAPL" "2023-01-01"
        "2025-01-01" := by
  decide

/-- C10 amended: for every identical input and identical download result the
two `update_chart` variants take the same branch and agree on the plotted
content: the container visibilities are equal and the candlestick series
(dates and open/high/low/close lists of every trace, with the trace name
forgotten) are equal.  They are not value-equal: the styles differ in the
flex key, the figures in title wording, axis-title fields on error paths,
and ticker casing. -/
theorem update_chart_variants_agree_on_content
    (download : String → String → String → StockDF) (n_clicks : Option Nat)
    (ticker start_date end_date : String) :
    (RealTimeStockChart.update_chart download n_clicks ticker start_date
        end_date).2.visibility
      = (RealTimeStockChart2.update_chart download n_clicks ticker start_date
        end_date).2.visibility ∧
    (RealTimeStockChart.update_chart download n_clicks ticker start_date
        end_date).1.data.map traceSeries
      = (RealTimeStockChart2.update_chart download n_clicks ticker start_date
        end_date).1.data.map traceSeries := by
  by_cases h : falsyClicks n_clicks = true
  · simp [RealTimeStockChart.update_chart, RealTimeStockChart2.update_chart, h,
      Figure.emptyFigure]
  · rw [Bool.not_eq_true] at h
    by_cases he : (download ticker start_date end_date).empty = true
    · simp [RealTimeStockChart.update_chart, RealTimeStockChart2.update_chart, h, he,
        Figure.emptyFigure]
    · rw [Bool.not_eq_true] at he
      cases hfind : List.find?
          (fun c => !decide (c ∈ (download ticker start_date end_date).colIndex.level0))
          required_cols with
      | none =>
        simp [RealTimeStockChart.update_chart, RealTimeStockChart2.update_chart, h, he,
          hfind, traceSeries]
      | some col =>
        simp [RealTimeStockChart.update_chart, RealTimeStockChart2.update_chart, h, he,
          hfind, Figure.emptyFigure]
